import Mathlib

/-!
Shallow embedding of the hotln crate (src/lib.rs): a dual-mode client that
files bug reports to the Linear issue tracker, either directly against its
GraphQL API or through a proxy relay.

External collaborators are modelled by their observable outcomes:
  - serde_json::Value is the inductive Json below; Value's Display (to_string)
    is Json.render; Value::get is Json.getField; the str Index (v["k"]) is
    Json.index; Value::as_str is Json.as_str.  serde_json's json! macro with
    the default (BTreeMap) object representation serializes fields in sorted
    key order, so object literals built from json! are listed alphabetically.
  - the ureq HTTP exchange result of send_string, together with the
    into_string reads and the serde_json::from_str parse of a 2xx body, is the
    inductive SendResult: ureq yields Ok(resp) on 2xx, Err(Status(code, resp))
    on non-2xx, or a transport-level error; into_string can fail; from_str can
    fail.  The functions below consume this outcome exactly as the Rust match
    arms do.
  - tracing's info!/debug! events are ignored (fire-and-forget, no effect on
    control flow).
-/

/-- Model of serde_json::Value.  Numbers are modelled as integers: no code
path or claim of this crate constructs or inspects a numeric JSON value. -/
inductive Json where
  | null : Json
  | bool (b : Bool) : Json
  | num (n : Int) : Json
  | str (s : String) : Json
  | arr (xs : List Json) : Json
  | obj (fields : List (String × Json)) : Json

/-- Hex digit (lowercase), as serde_json uses for control-character escapes. -/
def hexDigitCh (d : Nat) : Char :=
  if d < 10 then Char.ofNat (48 + d) else Char.ofNat (87 + d)

/-- Escape of one character inside a JSON string literal, following
serde_json: quote, backslash, and control characters are escaped. -/
def escapeJsonChar (c : Char) : String :=
  if c = '"' then "\\\""
  else if c = '\\' then "\\\\"
  else if c = '\n' then "\\n"
  else if c = '\r' then "\\r"
  else if c = '\t' then "\\t"
  else if c.toNat = 8 then "\\b"
  else if c.toNat = 12 then "\\f"
  else if c.toNat < 32 then
    "\\u00" ++ String.singleton (hexDigitCh (c.toNat / 16))
      ++ String.singleton (hexDigitCh (c.toNat % 16))
  else String.singleton c

/-- Rendering of a string as a JSON string literal (serde_json style). -/
def renderJsonString (s : String) : String :=
  "\"" ++ String.join (s.data.map escapeJsonChar) ++ "\""

mutual

/-- Compact serialization of a Json value: serde_json's Display / to_string. -/
def Json.render : Json → String
  | .null => "null"
  | .bool true => "true"
  | .bool false => "false"
  | .num n => toString n
  | .str s => renderJsonString s
  | .arr xs => "[" ++ renderArrItems xs ++ "]"
  | .obj fs => "\x7b" ++ renderObjItems fs ++ "\x7d"

/-- Comma-separated rendering of array elements. -/
def renderArrItems : List Json → String
  | [] => ""
  | [x] => Json.render x
  | x :: y :: xs => Json.render x ++ "," ++ renderArrItems (y :: xs)

/-- Comma-separated rendering of object fields. -/
def renderObjItems : List (String × Json) → String
  | [] => ""
  | [(k, v)] => renderJsonString k ++ ":" ++ Json.render v
  | (k, v) :: f :: fs =>
      renderJsonString k ++ ":" ++ Json.render v ++ "," ++ renderObjItems (f :: fs)

end

/-- Model of serde_json's Value::get(key): Some for a field of an object
(objects parsed by serde have unique keys; on our list form, first match),
None on anything else. -/
def Json.getField : Json → String → Option Json
  | .obj fs, key => fs.lookup key
  | _, _ => none

/-- Model of serde_json's Index for v["key"]: the field's value if v is an
object containing the key, Null otherwise (indexing Null or a non-object
yields Null). -/
def Json.index (j : Json) (key : String) : Json :=
  (j.getField key).getD Json.null

/-- Model of Value::as_str. -/
def Json.as_str : Json → Option String
  | .str s => some s
  | _ => none

/-- Error taxonomy of the crate (enum Error in lib.rs).  Http wraps the
underlying ureq transport error, modelled by its message. -/
inductive Error where
  | Http (e : String) : Error
  | Api (msg : String) : Error
  | Parse (msg : String) : Error
  | Proxy (status : Nat) (body : String) : Error
deriving DecidableEq, Repr

def LINEAR_API_URL : String := "https://api.linear.app/graphql"

/-- A client that calls Linear's GraphQL API directly with an API key. -/
structure DirectClient where
  api_key : String
  team_id : String
  project_id : String
deriving DecidableEq, Repr

/-- A client that posts bug reports to a proxy URL. -/
structure ProxyClient where
  url : String
  token : Option String
deriving DecidableEq, Repr

/-- Constructor hotln::direct. -/
def direct (api_key team_id project_id : String) : DirectClient :=
  { api_key := api_key, team_id := team_id, project_id := project_id }

/-- Constructor hotln::proxy. -/
def proxy (url : String) : ProxyClient :=
  { url := url, token := none }

/-- Builder ProxyClient::with_token: set a bearer token for proxy
authentication (pure value transformation). -/
def ProxyClient.with_token (c : ProxyClient) (token : String) : ProxyClient :=
  { c with token := some token }

/-- Outcome of the ureq POST round-trip plus the body reads, as consumed by
the Rust match arms:
  - ok2xx (readFail e): send_string returned Ok(resp) but resp.into_string()
    failed with message e;
  - ok2xx (readOk (error e)): the 2xx body text was read but
    serde_json::from_str failed with message e;
  - ok2xx (readOk (ok v)): the 2xx body text parsed to the JSON value v;
  - statusErr code bodyRead: send_string returned Err(ureq::Error::Status
    (code, resp)); bodyRead is resp.into_string() (none = read failed);
  - transportErr e: any other ureq error (DNS, connect, TLS, ...). -/
inductive Read2xx where
  | readFail (msg : String) : Read2xx
  | readOk (parsed : Except String Json) : Read2xx

inductive SendResult where
  | ok2xx (r : Read2xx) : SendResult
  | statusErr (code : Nat) (bodyRead : Option String) : SendResult
  | transportErr (msg : String) : SendResult

/-- An outbound HTTP request: URL, headers in the order they are set, and the
serialized body text. -/
structure HttpRequest where
  url : String
  headers : List (String × String)
  body : String
deriving DecidableEq, Repr

/-- Rust char::is_whitespace: the Unicode White_Space property. -/
def isRustWhitespace (c : Char) : Bool :=
  let n := c.toNat
  (9 ≤ n && n ≤ 13) || n = 32 || n = 133 || n = 160 || n = 5760 ||
  (8192 ≤ n && n ≤ 8202) || n = 8232 || n = 8233 || n = 8239 || n = 8287 ||
  n = 12288

/-- Trailing-whitespace trim on a character list. -/
def trimEndData (l : List Char) : List Char :=
  ((l.reverse).dropWhile isRustWhitespace).reverse

/-- Rust str::trim_end. -/
def rustTrimEnd (s : String) : String :=
  String.mk (trimEndData s.data)

/-- One rendered table row including its newline, as pushed by the loop in
format_description: format!("| \x7b\x7d | \x7b\x7d |\n", key, value). -/
def rowLine (p : String × String) : String :=
  "| " ++ p.1 ++ " | " ++ p.2 ++ " |\n"

/-- Accumulated body after the if-let on description: the description followed
by two newlines when present, the empty string otherwise. -/
def descBody (description : Option String) : String :=
  match description with
  | some desc => desc ++ "\n\n"
  | none => ""

/-- Function format_description in lib.rs.  The for loop over system_info
pushing one row per pair is the foldl. -/
def format_description (description : Option String)
    (system_info : List (String × String)) : String :=
  let body := descBody description
  let body :=
    if system_info.isEmpty then body
    else
      system_info.foldl (fun acc p => acc ++ rowLine p)
        (body ++ "## System Info\n\n" ++ "| Field | Value |\n|-------|-------|\n")
  rustTrimEnd body

/-- One table row without its trailing newline. -/
def rowCells (p : String × String) : String :=
  "| " ++ p.1 ++ " | " ++ p.2 ++ " |"

/-- The rows of the system-info table: one row per pair, in caller-supplied
order, separated by newlines.  Pairs are never merged or reordered. -/
def renderedRows : List (String × String) → String
  | [] => ""
  | [p] => rowCells p
  | p :: q :: rest => rowCells p ++ "\n" ++ renderedRows (q :: rest)

/-- Substring containment: pat occurs contiguously inside s. -/
def strContains (s pat : String) : Prop :=
  ∃ a b : String, s = a ++ (pat ++ b)

/-- Function graphql_request in lib.rs.  The real function performs the POST
itself; here the world's answer is the send argument and the function returns
the request it would send together with the classified result. -/
def graphql_request (url : String) (api_key : String) (body : Json)
    (send : SendResult) : HttpRequest × Except Error Json :=
  let req : HttpRequest :=
    { url := url
      headers := [("Authorization", api_key), ("Content-Type", "application/json")]
      body := body.render }
  let result : Except Error Json :=
    match send with
    | .transportErr e => .error (.Http e)
    | .statusErr code bodyRead =>
        .error (.Api ("Linear API returned " ++ toString code ++ ": "
          ++ bodyRead.getD ""))
    | .ok2xx (.readFail e) => .error (.Parse e)
    | .ok2xx (.readOk (.error e)) => .error (.Parse e)
    | .ok2xx (.readOk (.ok resp_json)) =>
        match resp_json.getField "errors" with
        | some errors => .error (.Api ("Linear API error: " ++ errors.render))
        | none => .ok resp_json
  (req, result)

/-- The fixed GraphQL mutation text of DirectClient::create_issue. -/
def issueCreateQuery : String :=
  "mutation IssueCreate($input: IssueCreateInput!) \x7b\n            issueCreate(input: $input) \x7b\n                success\n                issue \x7b\n                    id\n                    identifier\n                    url\n                \x7d\n            \x7d\n        \x7d"

/-- Method DirectClient::create_issue.  Returns the request it sends and, for
the given world answer, the result it returns. -/
def DirectClient.create_issue (c : DirectClient) (title : String)
    (description : Option String) (system_info : List (String × String))
    (send : SendResult) : HttpRequest × Except Error String :=
  let description := format_description description system_info
  let body : Json :=
    .obj [("query", .str issueCreateQuery),
          ("variables", .obj [("input", .obj
            [("description", .str description),
             ("projectId", .str c.project_id),
             ("teamId", .str c.team_id),
             ("title", .str title)])])]
  let (req, resp) := graphql_request LINEAR_API_URL c.api_key body send
  let result : Except Error String :=
    match resp with
    | .error e => .error e
    | .ok resp =>
        let issue := ((resp.index "data").index "issueCreate").index "issue"
        match (issue.index "url").as_str with
        | none => .error (.Parse "Linear response missing issue url")
        | some url =>
            let _identifier := ((issue.index "identifier").as_str).getD "unknown"
            .ok url
  (req, result)

/-- Method ProxyClient::create_issue.  Returns the request it sends and, for
the given world answer, the result it returns. -/
def ProxyClient.create_issue (c : ProxyClient) (title : String)
    (description : Option String) (system_info : List (String × String))
    (send : SendResult) : HttpRequest × Except Error String :=
  let description := format_description description system_info
  let payload : Json :=
    .obj [("description", .str description), ("title", .str title)]
  let body := payload.render
  let headers :=
    [("Content-Type", "application/json")] ++
      (match c.token with
       | some token => [("Authorization", "Bearer " ++ token)]
       | none => [])
  let req : HttpRequest := { url := c.url, headers := headers, body := body }
  let result : Except Error String :=
    match send with
    | .transportErr e => .error (.Http e)
    | .statusErr code bodyRead =>
        .error (.Proxy code (bodyRead.getD ""))
    | .ok2xx (.readFail e) => .error (.Parse e)
    | .ok2xx (.readOk (.error e)) => .error (.Parse e)
    | .ok2xx (.readOk (.ok resp)) =>
        match (resp.index "url").as_str with
        | none => .error (.Parse "proxy response missing url")
        | some url => .ok url
  (req, result)

/-! ## Helper lemmas about trailing-whitespace trimming -/

theorem dropWhile_append_ne {α : Type} (p : α → Bool) (xs ys : List α)
    (h : xs.dropWhile p ≠ []) :
    (xs ++ ys).dropWhile p = xs.dropWhile p ++ ys := by
  induction xs with
  | nil => simp at h
  | cons a as ih =>
    by_cases hpa : p a
    · simp only [List.dropWhile_cons, hpa, if_true, List.cons_append] at h ⊢
      exact ih h
    · simp [List.dropWhile_cons, hpa]

theorem trimEndData_append (l1 l2 : List Char) (h : trimEndData l2 ≠ []) :
    trimEndData (l1 ++ l2) = l1 ++ trimEndData l2 := by
  have h2 : l2.reverse.dropWhile isRustWhitespace ≠ [] := by
    intro hc
    exact h (by simp [trimEndData, hc])
  simp only [trimEndData, List.reverse_append]
  rw [dropWhile_append_ne _ _ _ h2, List.reverse_append, List.reverse_reverse]

theorem rustTrimEnd_append (s t : String) (h : trimEndData t.data ≠ []) :
    rustTrimEnd (s ++ t) = s ++ rustTrimEnd t := by
  apply String.ext
  simp only [rustTrimEnd, String.data_append]
  exact trimEndData_append s.data t.data h

theorem dropWhile_head_not (p : Char → Bool) (m : List Char) (c : Char)
    (h : (m.dropWhile p).head? = some c) : p c = false := by
  induction m with
  | nil => simp at h
  | cons a as ih =>
    cases hpa : p a with
    | true =>
      simp only [List.dropWhile_cons, hpa, if_true] at h
      exact ih h
    | false =>
      simp only [List.dropWhile_cons, hpa, Bool.false_eq_true, if_false,
        List.head?_cons, Option.some.injEq] at h
      rw [← h]
      exact hpa

theorem rustTrimEnd_no_trailing (s : String) :
    ((rustTrimEnd s).data.getLast?.all fun c => !isRustWhitespace c) = true := by
  have : (rustTrimEnd s).data.getLast?
      = (s.data.reverse.dropWhile isRustWhitespace).head? := by
    simp [rustTrimEnd, trimEndData, List.getLast?_reverse]
  rw [this]
  cases hh : (s.data.reverse.dropWhile isRustWhitespace).head? with
  | none => rfl
  | some c =>
    simp [Option.all, dropWhile_head_not isRustWhitespace s.data.reverse c hh]

/-! ## Structure of format_description -/

theorem rowLine_eq (p : String × String) : rowLine p = rowCells p ++ "\n" := by
  simp [rowLine, rowCells, String.append_assoc]

theorem foldl_rowLine (p : String × String) (rest : List (String × String)) :
    ∀ X : String,
      (p :: rest).foldl (fun acc q => acc ++ rowLine q) X
        = X ++ (renderedRows (p :: rest) ++ "\n") := by
  induction rest generalizing p with
  | nil =>
    intro X
    simp [renderedRows, rowLine_eq]
  | cons q rs ih =>
    intro X
    rw [List.foldl_cons, ih q, renderedRows]
    simp [rowLine_eq, String.append_assoc]

theorem renderedRows_ends (p : String × String) (rest : List (String × String)) :
    ∃ q : String, renderedRows (p :: rest) = q ++ " |" := by
  induction rest generalizing p with
  | nil => exact ⟨"| " ++ p.1 ++ " | " ++ p.2, rfl⟩
  | cons r rs ih =>
    obtain ⟨q, hq⟩ := ih r
    exact ⟨rowCells p ++ "\n" ++ q, by rw [renderedRows, hq]; simp [String.append_assoc]⟩

theorem format_description_cons (d : Option String) (p : String × String)
    (rest : List (String × String)) :
    format_description d (p :: rest)
      = descBody d ++ "## System Info\n\n" ++ "| Field | Value |\n|-------|-------|\n"
        ++ renderedRows (p :: rest) := by
  rw [show format_description d (p :: rest)
      = rustTrimEnd ((p :: rest).foldl (fun acc q => acc ++ rowLine q)
          (descBody d ++ "## System Info\n\n"
            ++ "| Field | Value |\n|-------|-------|\n"))
    from rfl]
  rw [foldl_rowLine]
  obtain ⟨q, hq⟩ := renderedRows_ends p rest
  rw [hq]
  have hsplit : ∀ X : String, X ++ ((q ++ " |") ++ "\n") = (X ++ q) ++ " |\n" := by
    intro X
    simp [String.append_assoc]
  rw [hsplit, rustTrimEnd_append _ " |\n" (by decide)]
  have htrim : rustTrimEnd " |\n" = " |" := rfl
  rw [htrim, String.append_assoc]

/-- Helper: the Direct-mode success path.  On a 2xx response whose JSON has no
top-level errors field and whose data.issueCreate.issue.url is a string,
create_issue returns Ok with that string. -/
theorem direct_ok_of (c : DirectClient) (title : String) (d : Option String)
    (si : List (String × String)) (resp : Json) (url : String)
    (herr : resp.getField "errors" = none)
    (hurl : (((resp.index "data").index "issueCreate").index "issue").index "url"
      = Json.str url) :
    (c.create_issue title d si (.ok2xx (.readOk (.ok resp)))).2 = .ok url := by
  simp [DirectClient.create_issue, graphql_request, herr, hurl, Json.as_str]

/-- C1: for every Direct-mode call where the HTTP response is 2xx, the body is
valid JSON with no top-level errors field, and data.issueCreate.issue.url is a
string, create_issue returns Ok with exactly that url string. -/
theorem direct_create_issue_ok (c : DirectClient) (title : String)
    (d : Option String) (si : List (String × String)) (resp : Json) (url : String)
    (herr : resp.getField "errors" = none)
    (hurl : (((resp.index "data").index "issueCreate").index "issue").index "url"
      = Json.str url) :
    (c.create_issue title d si (.ok2xx (.readOk (.ok resp)))).2 = .ok url :=
  direct_ok_of c title d si resp url herr hurl

/-- C1 witness: the spec's round-trip example response yields exactly
the url https://x/EMP-42. -/
theorem direct_create_issue_ok_witness :
    ((direct "lin_api_k" "team-1" "proj-1").create_issue "crash" none []
      (.ok2xx (.readOk (.ok (Json.obj [("data", Json.obj [("issueCreate",
        Json.obj [("issue", Json.obj [("id", Json.str "abc-123"),
          ("identifier", Json.str "EMP-42"),
          ("url", Json.str "https://x/EMP-42")])])])]))))).2
      = .ok "https://x/EMP-42" :=
  direct_create_issue_ok _ _ _ _ _ _ rfl rfl

/-- C9: the Direct-mode result is Ok(url) regardless of the value of the
data.issueCreate.success field (first conjunct: an arbitrary success value)
or its absence (second conjunct: no success field at all); the mutation
requests success but the code never inspects it. -/
theorem direct_create_issue_ignores_success (c : DirectClient) (title : String)
    (d : Option String) (si : List (String × String)) (success : Json)
    (issueFields : List (String × Json)) (url : String)
    (hurl : (Json.obj issueFields).index "url" = Json.str url) :
    (c.create_issue title d si (.ok2xx (.readOk (.ok (Json.obj [("data",
        Json.obj [("issueCreate", Json.obj [("success", success),
          ("issue", Json.obj issueFields)])])]))))).2 = .ok url ∧
    (c.create_issue title d si (.ok2xx (.readOk (.ok (Json.obj [("data",
        Json.obj [("issueCreate", Json.obj
          [("issue", Json.obj issueFields)])])]))))).2 = .ok url := by
  constructor
  · exact direct_ok_of c title d si _ url rfl hurl
  · exact direct_ok_of c title d si _ url rfl hurl

/-- C9 witness: with success set to true, and with success absent, the same
issue object yields Ok with its url. -/
theorem direct_create_issue_ignores_success_witness :
    (((direct "k" "t" "p").create_issue "bug" none [] (.ok2xx (.readOk (.ok
      (Json.obj [("data", Json.obj [("issueCreate", Json.obj
        [("success", Json.bool true),
         ("issue", Json.obj [("id", Json.str "abc-123"),
           ("identifier", Json.str "EMP-42"),
           ("url", Json.str "https://x/EMP-42")])])])]))))).2
      = .ok "https://x/EMP-42") ∧
    (((direct "k" "t" "p").create_issue "bug" none [] (.ok2xx (.readOk (.ok
      (Json.obj [("data", Json.obj [("issueCreate", Json.obj
        [("issue", Json.obj [("id", Json.str "abc-123"),
           ("identifier", Json.str "EMP-42"),
           ("url", Json.str "https://x/EMP-42")])])])]))))).2
      = .ok "https://x/EMP-42") :=
  direct_create_issue_ignores_success (direct "k" "t" "p") "bug" none []
    (Json.bool true)
    [("id", Json.str "abc-123"), ("identifier", Json.str "EMP-42"),
     ("url", Json.str "https://x/EMP-42")] "https://x/EMP-42" rfl

/-- C3: a Direct-mode 2xx response whose JSON has a top-level errors field
fails with an Api error whose message is the fixed text followed by the
serialized contents of that field. -/
theorem direct_create_issue_errors_field (c : DirectClient) (title : String)
    (d : Option String) (si : List (String × String)) (resp errs : Json)
    (herr : resp.getField "errors" = some errs) :
    (c.create_issue title d si (.ok2xx (.readOk (.ok resp)))).2
      = .error (.Api ("Linear API error: " ++ errs.render)) := by
  simp [DirectClient.create_issue, graphql_request, herr]

/-- C3 witness: on the spec's example errors body, the Api message is the
serialized errors array, and it contains the text Invalid input. -/
theorem direct_create_issue_errors_field_witness :
    ((direct "k" "t" "p").create_issue "bug" none [] (.ok2xx (.readOk (.ok
      (Json.obj [("errors", Json.arr [Json.obj
        [("message", Json.str "Invalid input")]])]))))).2
      = .error (.Api ("Linear API error: "
          ++ (Json.arr [Json.obj [("message", Json.str "Invalid input")]]).render)) ∧
    strContains ("Linear API error: "
        ++ (Json.arr [Json.obj [("message", Json.str "Invalid input")]]).render)
      "Invalid input" :=
  ⟨direct_create_issue_errors_field (direct "k" "t" "p") "bug" none [] _ _ rfl,
   ⟨"Linear API error: [\x7b\"message\":\"", "\"\x7d]", rfl⟩⟩

/-- C2: a Proxy-mode call against a relay answering a non-2xx status fails
with Proxy carrying the literal status code and the raw body text; in
particular 429 with body rate limited gives Proxy 429 "rate limited". -/
theorem proxy_create_issue_status_error (c : ProxyClient) (title : String)
    (d : Option String) (si : List (String × String)) (code : Nat)
    (body : String) :
    (c.create_issue title d si (.statusErr code (some body))).2
      = .error (.Proxy code body) ∧
    (c.create_issue title d si (.statusErr 429 (some "rate limited"))).2
      = .error (.Proxy 429 "rate limited") := by
  constructor <;> simp [ProxyClient.create_issue]

/-- C4 counterexample: on a Direct-mode non-2xx response the Api message
carries the fixed text "Linear API returned " before the status, so it is not
exactly "<status>: <body>": at status 429 with body oops the message is
"Linear API returned 429: oops", which differs from "429: oops". -/
theorem direct_status_message_cex :
    ((direct "k" "t" "p").create_issue "bug" none []
      (.statusErr 429 (some "oops"))).2
      = .error (.Api "Linear API returned 429: oops") ∧
    "Linear API returned 429: oops" ≠ "429: oops" := by
  constructor
  · rfl
  · decide

/-- C4 (amended): for every Direct-mode call where the HTTP layer reports a
non-2xx status with some body text, create_issue fails with an Api error whose
message is formatted exactly as "Linear API returned <status>: <body>". -/
theorem direct_create_issue_status_error (c : DirectClient) (title : String)
    (d : Option String) (si : List (String × String)) (code : Nat)
    (body : String) :
    (c.create_issue title d si (.statusErr code (some body))).2
      = .error (.Api ("Linear API returned " ++ toString code ++ ": " ++ body)) := by
  simp [DirectClient.create_issue, graphql_request]

/-- C5: a Proxy-mode client configured with_token sends exactly the
Content-Type header followed by Authorization: Bearer with that token, on
every create_issue call; a client built by proxy without with_token sends
exactly the Content-Type header and hence no Authorization header. -/
theorem proxy_create_issue_auth_header (c0 : ProxyClient) (u t title : String)
    (d : Option String) (si : List (String × String)) (send : SendResult)
    (title2 : String) (d2 : Option String) (si2 : List (String × String))
    (send2 : SendResult) :
    ((c0.with_token t).create_issue title d si send).1.headers
      = [("Content-Type", "application/json"),
         ("Authorization", "Bearer " ++ t)] ∧
    ((proxy u).create_issue title2 d2 si2 send2).1.headers
      = [("Content-Type", "application/json")] := by
  constructor <;> simp [ProxyClient.create_issue, ProxyClient.with_token, proxy]

/-- C10: for both modes, a non-2xx status whose body cannot be read as text
still yields the mode's rejection error with the empty string as body
(unwrap_or_default), not an Http or Parse error. -/
theorem create_issue_unreadable_error_body (cp : ProxyClient)
    (cd : DirectClient) (title : String) (d : Option String)
    (si : List (String × String)) (code : Nat) :
    (cp.create_issue title d si (.statusErr code none)).2
      = .error (.Proxy code "") ∧
    (cd.create_issue title d si (.statusErr code none)).2
      = .error (.Api ("Linear API returned " ++ toString code ++ ": ")) := by
  constructor <;>
    simp [ProxyClient.create_issue, DirectClient.create_issue, graphql_request]

/-- C7: with description absent and system_info empty, format_description
returns the empty string. -/
theorem format_description_none_nil : format_description none [] = "" := rfl

/-- C6 counterexample: the "table section if and only if system_info is
non-empty" direction fails as universally stated, because a description that
itself contains table text survives into the output: with description set to a
pasted table and system_info empty, the output contains the Markdown table
header block even though system_info is empty. -/
theorem format_description_table_iff_cex :
    ¬ (strContains
        (format_description
          (some "| Field | Value |\n|-------|-------|\n| OS | macos |") [])
        "| Field | Value |\n|-------|-------|\n"
      ↔ ([] : List (String × String)) ≠ []) := by
  intro h
  exact (h.mp ⟨"", "| OS | macos |", by decide⟩) rfl

/-- C6 (amended): for every description and system_info, the output of
format_description ends in no trailing whitespace character; if system_info is
non-empty the output contains the Markdown table header block; and if
system_info is empty the output is exactly the trimmed description part (so
the formatter itself appends a table section iff system_info is non-empty,
though a description containing table text can still make table text appear). -/
theorem format_description_whitespace_table (d : Option String)
    (si : List (String × String)) :
    ((format_description d si).data.getLast?.all fun c => !isRustWhitespace c)
      = true ∧
    (si ≠ [] → strContains (format_description d si)
      "| Field | Value |\n|-------|-------|\n") ∧
    (si = [] → format_description d si = rustTrimEnd (descBody d)) := by
  refine ⟨?_, ?_, ?_⟩
  · cases si with
    | nil => exact rustTrimEnd_no_trailing (descBody d)
    | cons p rest =>
      exact rustTrimEnd_no_trailing
        ((p :: rest).foldl (fun acc q => acc ++ rowLine q)
          (descBody d ++ "## System Info\n\n"
            ++ "| Field | Value |\n|-------|-------|\n"))
  · intro h
    obtain ⟨p, rest, rfl⟩ := List.exists_cons_of_ne_nil h
    rw [format_description_cons]
    refine ⟨descBody d ++ "## System Info\n\n", renderedRows (p :: rest), ?_⟩
    simp only [String.append_assoc]
  · intro h
    subst h
    rfl

/-- C6 witness: the amended statement applied at a concrete description and a
one-pair system_info, and at the same description with empty system_info. -/
theorem format_description_whitespace_table_witness :
    ((format_description (some "x") [("OS", "macos")]).data.getLast?.all
        fun c => !isRustWhitespace c) = true ∧
    strContains (format_description (some "x") [("OS", "macos")])
      "| Field | Value |\n|-------|-------|\n" ∧
    format_description (some "x") [] = rustTrimEnd (descBody (some "x")) :=
  ⟨(format_description_whitespace_table (some "x") [("OS", "macos")]).1,
   (format_description_whitespace_table (some "x") [("OS", "macos")]).2.1
     (List.cons_ne_nil _ _),
   (format_description_whitespace_table (some "x") []).2.2 rfl⟩

/-- C8: for non-empty system_info the output is the description part, the
fixed header block, and renderedRows system_info: exactly one table row per
pair, in caller-supplied order, duplicates kept as separate rows. -/
theorem format_description_rows_per_pair (d : Option String)
    (si : List (String × String)) (h : si ≠ []) :
    format_description d si
      = descBody d ++ "## System Info\n\n"
        ++ "| Field | Value |\n|-------|-------|\n" ++ renderedRows si := by
  obtain ⟨p, rest, rfl⟩ := List.exists_cons_of_ne_nil h
  exact format_description_cons d p rest

/-- C8 witness: a duplicate pair renders as two separate rows. -/
theorem format_description_rows_per_pair_witness :
    format_description none [("OS", "macos"), ("OS", "macos")]
      = descBody none ++ "## System Info\n\n"
        ++ "| Field | Value |\n|-------|-------|\n"
        ++ renderedRows [("OS", "macos"), ("OS", "macos")] :=
  format_description_rows_per_pair none _ (List.cons_ne_nil _ _)
